import Mathlib

/-!
Verification of the reconciliation core of a declarative-apply tool:
inventory set algebra, grouping-record decoding and union, prune-set
computation, status-reader resolution and aggregation, and the
ActuationStatus string rendering.

The implementations of the prune and status-reader components are not
part of the shown source (only their tests are), so those definitions
are modelled from the specification; the ActuationStatus string table
is embedded directly from the generated source file.
-/

/-- Modelled from the spec: an ObjectIdentity is the immutable four-tuple
(group, kind, namespace, name) naming a cluster resource. The field
`nspace` stands for the namespace (a reserved word in Lean). -/
structure ObjMetadata where
  group : String
  kind : String
  nspace : String
  name : String
deriving DecidableEq, Repr

/-- Modelled from the spec: normalization of an identity. The namespace is
defaulted consistently (empty namespace is treated as "default"); the
group is kept as written, empty group being the consistent form. -/
def ObjMetadata.normalize (m : ObjMetadata) : ObjMetadata :=
  { m with nspace := if m.nspace = "" then "default" else m.nspace }

/-- Modelled from the spec: two identities are equal iff all four fields
match after normalization. -/
def ObjMetadata.EqualsWithNormalize (a b : ObjMetadata) : Bool :=
  a.normalize = b.normalize

/-- Modelled from the spec: an Inventory is a set of ObjectIdentity with
no duplicates; equality is set equality. -/
abbrev Inventory := Finset ObjMetadata

/-- Modelled from the spec: union of two Inventories, deduplicated by
identity equality; a pure function returning a new set. -/
def Inventory.union (a b : Inventory) : Inventory := a ∪ b

/-- Modelled from the spec: difference of two Inventories, the identities
in `a` not present (by identity equality) in `b`. -/
def Inventory.difference (a b : Inventory) : Inventory := a \ b

/-- Modelled from the spec: membership test on an Inventory. -/
def Inventory.containsId (a : Inventory) (x : ObjMetadata) : Bool :=
  decide (x ∈ a)

/-- Modelled from the spec: emptiness test on an Inventory. -/
def Inventory.isEmptyInv (a : Inventory) : Bool := decide (a = ∅)

/-- Modelled from the spec: build an Inventory from a list of identities,
deduplicating by identity equality. -/
def NewInventory (l : List ObjMetadata) : Inventory := l.toFinset

/-- Splits a list of characters at every occurrence of the separator;
the number of produced fields is one more than the number of separators. -/
def splitFields (sep : Char) : List Char → List (List Char)
  | [] => [[]]
  | c :: rest =>
    let r := splitFields sep rest
    if c = sep then [] :: r
    else
      match r with
      | [] => [[c]]
      | f :: fs => (c :: f) :: fs

/-- Modelled from the spec: an encoded identity string has the form
group_kind_namespace_name, the four fields joined by the fixed
delimiter; decoding rejects strings with the wrong field count. -/
def decodeIdentity (s : String) : Except String ObjMetadata :=
  match (splitFields '_' s.data).map String.mk with
  | [g, k, ns, n] => Except.ok ⟨g, k, ns, n⟩
  | _ => Except.error ("unable to parse identity: " ++ s)

/-- Modelled from the spec: a GroupingRecord is a persisted object with
its own identifying name and a data payload encoding an ordered list of
identity strings; a missing payload models a malformed record. -/
structure GroupingRecord where
  name : String
  payload : Option (List String)
deriving DecidableEq, Repr

/-- Decodes every entry of a grouping-record payload, surfacing the first
failure together with the name of the record it came from. -/
def decodeEntries (rname : String) : List String → Except String (List ObjMetadata)
  | [] => Except.ok []
  | s :: rest =>
    match decodeIdentity s with
    | Except.error e => Except.error (e ++ " in grouping record " ++ rname)
    | Except.ok m =>
      match decodeEntries rname rest with
      | Except.error e => Except.error e
      | Except.ok ms => Except.ok (m :: ms)

/-- Modelled from the spec: extractInventory converts one persisted
grouping record into an Inventory; it fails if the payload is missing or
any encoded identity string cannot be split into group/kind/namespace/name.
A record with zero encoded entries is valid and yields an empty Inventory. -/
def extractInventory (r : GroupingRecord) : Except String Inventory :=
  match r.payload with
  | none => Except.error ("grouping record " ++ r.name ++ ": missing inventory payload")
  | some entries =>
    match decodeEntries r.name entries with
    | Except.error e => Except.error e
    | Except.ok ids => Except.ok (NewInventory ids)

/-- Modelled from the spec: unionHistoricalInventories extracts the
Inventory of each grouping record and unions them, failing without
partial success if any record fails to decode; the empty sequence yields
the empty Inventory. -/
def unionHistoricalInventories : List GroupingRecord → Except String Inventory
  | [] => Except.ok ∅
  | r :: rest =>
    match extractInventory r with
    | Except.error e => Except.error e
    | Except.ok inv =>
      match unionHistoricalInventories rest with
      | Except.error e => Except.error e
      | Except.ok acc => Except.ok (Inventory.union inv acc)

/-- Modelled from the spec: calcPruneSet computes
difference(unionHistoricalInventories(pastRecords), currentInventory);
a malformed past or current record is a fatal error. -/
def calcPruneSet (past : List GroupingRecord) (current : GroupingRecord) :
    Except String Inventory :=
  match unionHistoricalInventories past with
  | Except.error e => Except.error e
  | Except.ok u =>
    match extractInventory current with
    | Except.error e => Except.error e
    | Except.ok c => Except.ok (Inventory.difference u c)

instance {ε α : Type} [DecidableEq ε] [DecidableEq α] : DecidableEq (Except ε α) :=
  fun a b =>
  match a, b with
  | Except.error x, Except.error y =>
    decidable_of_iff (x = y)
      ⟨fun h => by rw [h], fun h => by cases h; rfl⟩
  | Except.ok x, Except.ok y =>
    decidable_of_iff (x = y)
      ⟨fun h => by rw [h], fun h => by cases h; rfl⟩
  | Except.error _, Except.ok _ => isFalse (fun h => Except.noConfusion h)
  | Except.ok _, Except.error _ => isFalse (fun h => Except.noConfusion h)

/-- Modelled from the spec: a (group, kind) pair naming a resource kind. -/
structure GroupKind where
  group : String
  kind : String
deriving DecidableEq, Repr

/-- Modelled from the spec: a concrete (group, version, kind) resolved by
the REST mapper. -/
structure GroupVersionKind where
  group : String
  version : String
  kind : String
deriving DecidableEq, Repr

/-- The (group, kind) pair of an identity. -/
def ObjMetadata.groupKind (m : ObjMetadata) : GroupKind := ⟨m.group, m.kind⟩

/-- Modelled from the spec: outcome of a cluster-reader get call:
success, a distinct not-found response, or a generic read failure. -/
inductive GetOutcome where
  | found
  | notFound
  | readErr (msg : String)
deriving DecidableEq, Repr

/-- Modelled from the spec: a fetched resource object with the group,
version and kind set from the resolved mapping. -/
structure UObj where
  gvk : GroupVersionKind
  nspace : String
  name : String
deriving DecidableEq, Repr

/-- Modelled from the spec: the four mutually distinct outcomes of
lookupResource: success, a permanent resolution error, the distinct
not-found outcome, and a generic read error. -/
inductive LookupResult where
  | ok (u : UObj)
  | resolutionErr (gk : GroupKind)
  | notFound (id : ObjMetadata)
  | readErr (msg : String)
deriving DecidableEq, Repr

/-- Modelled from the spec: lookupResource resolves (group, kind) through
the REST mapper (failure is a permanent resolution error), then fetches
the object by identity through the cluster reader; not-found is surfaced
as a distinct outcome and any other read failure as a generic read error. -/
def lookupResource (mapper : GroupKind → Option GroupVersionKind)
    (reader : ObjMetadata → GetOutcome) (id : ObjMetadata) : LookupResult :=
  match mapper id.groupKind with
  | none => LookupResult.resolutionErr id.groupKind
  | some gvk =>
    match reader id with
    | GetOutcome.found => LookupResult.ok ⟨gvk, id.nspace, id.name⟩
    | GetOutcome.notFound => LookupResult.notFound id
    | GetOutcome.readErr m => LookupResult.readErr m

/-- Modelled from the spec: an unstructured field tree, enough to model a
manifest carrying (or not carrying) a selector map at a field path. -/
inductive UValue where
  | str (s : String)
  | map (fields : List (String × UValue))

/-- Looks a key up in the field list of an unstructured map value. -/
def lookupField (k : String) : List (String × UValue) → Option UValue
  | [] => none
  | (key, v) :: rest => if k = key then some v else lookupField k rest

/-- Walks an unstructured value down a field path. -/
def getNested : UValue → List String → Option UValue
  | v, [] => some v
  | UValue.map fs, k :: ks =>
    match lookupField k fs with
    | none => none
    | some v => getNested v ks
  | UValue.str _, _ :: _ => none

/-- Modelled from the spec: reads a label selector from a parent object at
the given field path; a missing selector is the fatal "no selector found"
error, and a structurally invalid (non-map) value is also fatal. -/
def toSelector (obj : UValue) (path : List String) :
    Except String (List (String × UValue)) :=
  match getNested obj path with
  | none => Except.error "no selector found"
  | some (UValue.map fs) => Except.ok fs
  | some (UValue.str s) =>
    Except.error ("selector accessor error: " ++ s ++ " is not a map")

/-- Modelled from the spec: a listed generated resource, carrying its
identity and an opaque payload consumed only by the injected
status computation. -/
structure ChildObject where
  identity : ObjMetadata
  payload : String
deriving DecidableEq, Repr

/-- The lexicographic sort key of an identity: group, then kind, then
namespace, then name. -/
def idKey (m : ObjMetadata) : String ×ₗ (String ×ₗ (String ×ₗ String)) :=
  toLex (m.group, toLex (m.kind, toLex (m.nspace, m.name)))

/-- Modelled from the spec: the total order over identities used to order
the aggregated status report, lifted to {identity, status} pairs. -/
def statusLe (p q : ObjMetadata × String) : Prop := idKey p.1 ≤ idKey q.1

instance : DecidableRel statusLe := fun p q =>
  inferInstanceAs (Decidable (idKey p.1 ≤ idKey q.1))

instance : IsTotal (ObjMetadata × String) statusLe :=
  ⟨fun p q => le_total (idKey p.1) (idKey q.1)⟩

instance : IsTrans (ObjMetadata × String) statusLe :=
  ⟨fun _ _ _ h h2 => le_trans h h2⟩

/-- Modelled from the spec: the canonical ordering step of the assembly,
sorting {identity, status} pairs by the total order over identity. -/
def sortStatuses (l : List (ObjMetadata × String)) : List (ObjMetadata × String) :=
  List.insertionSort statusLe l

/-- Modelled from the spec: statusForGeneratedResources extracts the label
selector at the field path, resolves the target group/kind through the
REST mapper, lists matching resources in the parent namespace through the
cluster reader, delegates per-child status to the injected computation,
and returns the pairs sorted by identity. Every step failure is fatal. -/
def statusForGeneratedResources
    (mapper : GroupKind → Option GroupVersionKind)
    (lister : GroupVersionKind → String → List (String × UValue) →
      Except String (List ChildObject))
    (computeStatus : ChildObject → String)
    (parent : UValue) (parentNs : String)
    (gk : GroupKind) (path : List String) :
    Except String (List (ObjMetadata × String)) :=
  match toSelector parent path with
  | Except.error e => Except.error e
  | Except.ok sel =>
    match mapper gk with
    | none =>
      Except.error ("no matches for kind " ++ gk.kind ++ " in group " ++ gk.group)
    | some gvk =>
      match lister gvk parentNs sel with
      | Except.error e => Except.error e
      | Except.ok children =>
        Except.ok (sortStatuses (children.map (fun c => (c.identity, computeStatus c))))

/-- The generated string table of the ActuationStatus stringer. -/
def actuationStatusName : String := "PendingSucceededSkippedFailed"

/-- The generated index table of the ActuationStatus stringer. -/
def actuationStatusIndex : List Nat := [0, 7, 16, 23, 29]

/-- The String method of ActuationStatus, embedded from the generated
stringer source: tags outside 0..3 render as "ActuationStatus(n)",
in-range tags slice the name table between consecutive indices. -/
def ActuationStatusString (i : Int) : String :=
  if i < 0 ∨ (4 : Int) ≤ i then
    "ActuationStatus(" ++ toString i ++ ")"
  else
    let lo := actuationStatusIndex.getD i.toNat 0
    let hi := actuationStatusIndex.getD (i.toNat + 1) 0
    String.mk ((actuationStatusName.data.drop lo).take (hi - lo))

/-- Modelled from the spec: the description of a resource carried by a
resource.Info, with the four identity fields of the underlying object;
`obj = none` models an Info whose Object field is nil. The whole Info
being nil is modelled by `none : Option Info` at the call site. -/
structure Info where
  obj : Option ObjMetadata
deriving DecidableEq, Repr

/-- Modelled from the spec: converting a generic resource description into
an ObjectIdentity fails with an explicit error when the description is
absent or carries no underlying resource object. -/
def infoToObjMetadata : Option Info → Except String ObjMetadata
  | none => Except.error "nil resource.Info object"
  | some i =>
    match i.obj with
    | none => Except.error "object is nil in resource.Info"
    | some o => Except.ok o

/-- A pod identity used by the concrete scenarios. -/
def podA : ObjMetadata := ⟨"", "Pod", "test", "pod-a"⟩

/-- A pod identity used by the concrete scenarios. -/
def podB : ObjMetadata := ⟨"", "Pod", "test", "pod-b"⟩

/-- A pod identity used by the concrete scenarios. -/
def podC : ObjMetadata := ⟨"", "Pod", "test", "pod-c"⟩

/-- A past grouping record encoding {podA, podB}. -/
def recPastAB : GroupingRecord :=
  ⟨"past-1", some ["_Pod_test_pod-a", "_Pod_test_pod-b"]⟩

/-- A past grouping record encoding {podB, podC}. -/
def recPastBC : GroupingRecord :=
  ⟨"past-2", some ["_Pod_test_pod-b", "_Pod_test_pod-c"]⟩

/-- A current grouping record encoding {podB}. -/
def recCurB : GroupingRecord := ⟨"cur", some ["_Pod_test_pod-b"]⟩

/-- A grouping record with zero encoded entries. -/
def recEmpty : GroupingRecord := ⟨"empty", some []⟩

/-- A grouping record whose payload is missing. -/
def recNoPayload : GroupingRecord := ⟨"broken", none⟩

/-- A grouping record with a malformed identity string. -/
def recBadEntry : GroupingRecord := ⟨"bad", some ["justonefield"]⟩

lemma unionHistorical_ok_of_decodes (past : List GroupingRecord) :
    ∀ invs : List Inventory,
    past.map extractInventory = invs.map Except.ok →
    unionHistoricalInventories past = Except.ok (invs.foldr Inventory.union ∅) := by
  induction past with
  | nil =>
    intro invs h
    have : invs = [] := by
      cases invs with
      | nil => rfl
      | cons i is => simp at h
    subst this
    rfl
  | cons r rest ih =>
    intro invs h
    cases invs with
    | nil => simp at h
    | cons i is =>
      simp only [List.map_cons, List.cons.injEq] at h
      obtain ⟨h1, h2⟩ := h
      simp only [unionHistoricalInventories, h1, ih is h2, List.foldr_cons]

/-- C1: for past records P1..Pn and current C that all decode successfully,
calcPruneSet returns exactly difference(union(extract(P1)..extract(Pn)),
extract(C)); an empty past sequence yields an empty prune set rather than
an error, and using the same snapshot as a past record and as current
yields an empty prune set. -/
theorem calcPruneSet_diff_spec :
    (∀ (past : List GroupingRecord) (cur : GroupingRecord)
       (invs : List Inventory) (c : Inventory),
       past.map extractInventory = invs.map Except.ok →
       extractInventory cur = Except.ok c →
       calcPruneSet past cur =
         Except.ok (Inventory.difference (invs.foldr Inventory.union ∅) c)) ∧
    (∀ (cur : GroupingRecord) (c : Inventory),
       extractInventory cur = Except.ok c →
       calcPruneSet [] cur = Except.ok ∅) ∧
    (∀ (r : GroupingRecord) (inv : Inventory),
       extractInventory r = Except.ok inv →
       calcPruneSet [r] r = Except.ok ∅) := by
  refine ⟨?_, ?_, ?_⟩
  · intro past cur invs c hp hc
    simp only [calcPruneSet, unionHistorical_ok_of_decodes past invs hp, hc]
  · intro cur c hc
    simp only [calcPruneSet, unionHistoricalInventories, hc, Except.ok.injEq]
    simp [Inventory.difference]
  · intro r inv hr
    simp only [calcPruneSet, unionHistoricalInventories, hr, Except.ok.injEq]
    simp [Inventory.union, Inventory.difference]

/-- Closed witness for calcPruneSet_diff_spec at concrete records. -/
theorem calcPruneSet_diff_spec_witness :
    calcPruneSet [recPastAB] recCurB =
      Except.ok (Inventory.difference
        (List.foldr Inventory.union ∅ [NewInventory [podA, podB]])
        (NewInventory [podB])) ∧
    calcPruneSet [recCurB] recCurB = Except.ok ∅ :=
  ⟨calcPruneSet_diff_spec.1 [recPastAB] recCurB [NewInventory [podA, podB]]
      (NewInventory [podB]) (by decide) (by decide),
   calcPruneSet_diff_spec.2.2 recCurB (NewInventory [podB]) (by decide)⟩

/-- C7: Inventory union is commutative and idempotent, and its membership
is exactly the union of the memberships of the operands (a pure,
deduplicated set union that mutates neither operand). -/
theorem inventory_union_comm_idem :
    ∀ A B : Inventory,
    Inventory.union A B = Inventory.union B A ∧
    Inventory.union A A = A ∧
    ∀ x : ObjMetadata, x ∈ Inventory.union A B ↔ x ∈ A ∨ x ∈ B :=
  fun A B =>
    ⟨Finset.union_comm A B, Finset.union_self A, fun _ => Finset.mem_union⟩

/-- C9: the ActuationStatus String function maps tag 0 to "Pending", 1 to
"Succeeded", 2 to "Skipped", 3 to "Failed", and renders every other
integer tag, negatives included, as "ActuationStatus(n)" with the decimal
form of the tag, never crashing. -/
theorem actuationStatus_string_spec :
    ActuationStatusString 0 = "Pending" ∧
    ActuationStatusString 1 = "Succeeded" ∧
    ActuationStatusString 2 = "Skipped" ∧
    ActuationStatusString 3 = "Failed" ∧
    ∀ i : Int, (i < 0 ∨ (4 : Int) ≤ i) →
      ActuationStatusString i = "ActuationStatus(" ++ toString i ++ ")" := by
  refine ⟨by decide, by decide, by decide, by decide, ?_⟩
  intro i h
  unfold ActuationStatusString
  rw [if_pos h]

/-- Closed witness for actuationStatus_string_spec at an out-of-range tag. -/
theorem actuationStatus_string_spec_witness :
    ActuationStatusString (-2) = "ActuationStatus(" ++ toString (-2 : Int) ++ ")" :=
  actuationStatus_string_spec.2.2.2.2 (-2) (Or.inl (by decide))

lemma mem_unionHistorical (past : List GroupingRecord) :
    ∀ u : Inventory, unionHistoricalInventories past = Except.ok u →
    ∀ x : ObjMetadata,
      x ∈ u ↔ ∃ r ∈ past, ∃ i, extractInventory r = Except.ok i ∧ x ∈ i := by
  induction past with
  | nil =>
    intro u hu x
    simp only [unionHistoricalInventories, Except.ok.injEq] at hu
    subst hu
    simp
  | cons r rest ih =>
    intro u hu x
    simp only [unionHistoricalInventories] at hu
    cases hr : extractInventory r with
    | error e => rw [hr] at hu; exact Except.noConfusion hu
    | ok inv =>
      rw [hr] at hu
      cases hrest : unionHistoricalInventories rest with
      | error e => rw [hrest] at hu; exact Except.noConfusion hu
      | ok acc =>
        rw [hrest] at hu
        injection hu with hu
        subst hu
        simp only [Inventory.union]
        constructor
        · intro hx
          rcases Finset.mem_union.mp hx with h | h
          · exact ⟨r, List.mem_cons_self r rest, inv, hr, h⟩
          · obtain ⟨r2, hr2, i, hi, hxi⟩ := (ih acc hrest x).mp h
            exact ⟨r2, List.mem_cons_of_mem r hr2, i, hi, hxi⟩
        · rintro ⟨r2, hr2, i, hi, hxi⟩
          rcases List.mem_cons.mp hr2 with rfl | h2
          · rw [hr] at hi
            injection hi with hi
            subst hi
            exact Finset.mem_union_left _ hxi
          · exact Finset.mem_union_right _ ((ih acc hrest x).mpr ⟨r2, h2, i, hi, hxi⟩)

/-- C2: unionHistoricalInventories yields a deduplicated set: the empty
sequence yields the empty Inventory, every member of the union is counted
exactly once no matter how many past records contained it, the union
holds exactly the identities extracted from some past record, and the
concrete overlapping scenario past [{podA,podB},{podB,podC}] minus
current {podB} gives exactly {podA, podC}. -/
theorem unionHistorical_dedup_spec :
    unionHistoricalInventories [] = Except.ok ∅ ∧
    (∀ (past : List GroupingRecord) (u : Inventory) (x : ObjMetadata),
       unionHistoricalInventories past = Except.ok u → x ∈ u →
       Multiset.count x u.val = 1) ∧
    (∀ (past : List GroupingRecord) (u : Inventory) (x : ObjMetadata),
       unionHistoricalInventories past = Except.ok u →
       (x ∈ u ↔ ∃ r ∈ past, ∃ i, extractInventory r = Except.ok i ∧ x ∈ i)) ∧
    calcPruneSet [recPastAB, recPastBC] recCurB =
      Except.ok (NewInventory [podA, podC]) := by
  refine ⟨rfl, ?_, ?_, by decide⟩
  · intro past u x _ hx
    exact Multiset.count_eq_one_of_mem u.nodup (Finset.mem_def.mp hx)
  · intro past u x hu
    exact mem_unionHistorical past u hu x

/-- Closed witness for unionHistorical_dedup_spec at the overlapping
concrete records. -/
theorem unionHistorical_dedup_spec_witness :
    Multiset.count podB (NewInventory [podA, podB, podC]).val = 1 ∧
    (podB ∈ NewInventory [podA, podB, podC] ↔
      ∃ r ∈ [recPastAB, recPastBC], ∃ i,
        extractInventory r = Except.ok i ∧ podB ∈ i) :=
  ⟨unionHistorical_dedup_spec.2.1 [recPastAB, recPastBC]
      (NewInventory [podA, podB, podC]) podB (by decide) (by decide),
   unionHistorical_dedup_spec.2.2.1 [recPastAB, recPastBC]
      (NewInventory [podA, podB, podC]) podB (by decide)⟩

/-- C5: if any grouping record in the sequence fails to decode then
unionHistoricalInventories fails with the decode error of an offending
record in the sequence (no partial success), calcPruneSet propagates that
failure, and a record legitimately encoding zero entries is not an error
and yields the empty Inventory. -/
theorem unionHistorical_error_spec :
    (∀ past : List GroupingRecord,
       (∃ r ∈ past, ∃ e, extractInventory r = Except.error e) →
       ∃ r ∈ past, ∃ e, extractInventory r = Except.error e ∧
         unionHistoricalInventories past = Except.error e) ∧
    (∀ (past : List GroupingRecord) (cur : GroupingRecord) (e : String),
       unionHistoricalInventories past = Except.error e →
       calcPruneSet past cur = Except.error e) ∧
    (∀ r : GroupingRecord, r.payload = some [] →
       extractInventory r = Except.ok ∅) := by
  refine ⟨?_, ?_, ?_⟩
  · intro past
    induction past with
    | nil => rintro ⟨r, hr, _⟩; simp at hr
    | cons r rest ih =>
      rintro ⟨r2, hr2, e2, he2⟩
      cases hr : extractInventory r with
      | error e =>
        exact ⟨r, List.mem_cons_self r rest, e, hr,
          by simp only [unionHistoricalInventories, hr]⟩
      | ok inv =>
        have hin : r2 ∈ rest := by
          rcases List.mem_cons.mp hr2 with rfl | h
          · rw [hr] at he2; exact Except.noConfusion he2
          · exact h
        obtain ⟨r3, hr3, e3, he3, hu3⟩ := ih ⟨r2, hin, e2, he2⟩
        exact ⟨r3, List.mem_cons_of_mem r hr3, e3, he3,
          by simp only [unionHistoricalInventories, hr, hu3]⟩
  · intro past cur e h
    simp only [calcPruneSet, h]
  · intro r h
    unfold extractInventory
    rw [h]
    simp [decodeEntries, NewInventory]

/-- Closed witness for unionHistorical_error_spec at a record with a
missing payload and at a record with zero entries. -/
theorem unionHistorical_error_spec_witness :
    (∃ r ∈ [recNoPayload], ∃ e, extractInventory r = Except.error e ∧
       unionHistoricalInventories [recNoPayload] = Except.error e) ∧
    extractInventory recEmpty = Except.ok ∅ :=
  ⟨unionHistorical_error_spec.1 [recNoPayload]
      ⟨recNoPayload, List.mem_cons_self _ _, _, rfl⟩,
   unionHistorical_error_spec.2.2 recEmpty rfl⟩

/-- C8: converting a resource description to an ObjectIdentity fails with
an explicit error when the description is absent or carries no underlying
resource object, and for a well-formed description returns the identity
matching the described object under normalized equality. -/
theorem infoToObjMetadata_spec :
    (∃ e, infoToObjMetadata none = Except.error e) ∧
    (∀ i : Info, i.obj = none →
       ∃ e, infoToObjMetadata (some i) = Except.error e) ∧
    (∀ (i : Info) (o : ObjMetadata), i.obj = some o →
       ∃ m, infoToObjMetadata (some i) = Except.ok m ∧
         m.EqualsWithNormalize o = true) := by
  refine ⟨⟨_, rfl⟩, ?_, ?_⟩
  · intro i h
    exact ⟨"object is nil in resource.Info", by simp only [infoToObjMetadata, h]⟩
  · intro i o h
    refine ⟨o, by simp only [infoToObjMetadata, h], ?_⟩
    simp [ObjMetadata.EqualsWithNormalize]

/-- Closed witness for infoToObjMetadata_spec at a nil object and at a
pod description. -/
theorem infoToObjMetadata_spec_witness :
    (∃ e, infoToObjMetadata (some ⟨none⟩) = Except.error e) ∧
    (∃ m, infoToObjMetadata (some ⟨some podA⟩) = Except.ok m ∧
       m.EqualsWithNormalize podA = true) :=
  ⟨infoToObjMetadata_spec.2.1 ⟨none⟩ rfl,
   infoToObjMetadata_spec.2.2 ⟨some podA⟩ podA rfl⟩

/-- C4: when the group/kind mapping of an identity resolves and the
cluster reader answers not-found, lookupResource returns the dedicated
not-found outcome, which is distinct from the resolution-error, read-error
and success outcomes. -/
theorem lookupResource_notFound_distinct :
    ∀ (mapper : GroupKind → Option GroupVersionKind)
      (reader : ObjMetadata → GetOutcome)
      (id : ObjMetadata) (gvk : GroupVersionKind),
      mapper id.groupKind = some gvk →
      reader id = GetOutcome.notFound →
      lookupResource mapper reader id = LookupResult.notFound id ∧
      (∀ g, LookupResult.notFound id ≠ LookupResult.resolutionErr g) ∧
      (∀ m, LookupResult.notFound id ≠ LookupResult.readErr m) ∧
      (∀ u, LookupResult.notFound id ≠ LookupResult.ok u) := by
  intro mapper reader id gvk h1 h2
  refine ⟨by simp only [lookupResource, h1, h2],
    fun g h => LookupResult.noConfusion h,
    fun m h => LookupResult.noConfusion h,
    fun u h => LookupResult.noConfusion h⟩

/-- Closed witness for lookupResource_notFound_distinct at a deployment
identity whose kind resolves and whose read answers not-found. -/
theorem lookupResource_notFound_distinct_witness :
    lookupResource (fun _ => some ⟨"apps", "v1", "Deployment"⟩)
      (fun _ => GetOutcome.notFound) ⟨"apps", "Deployment", "Bar", "Foo"⟩ =
      LookupResult.notFound ⟨"apps", "Deployment", "Bar", "Foo"⟩ :=
  (lookupResource_notFound_distinct (fun _ => some ⟨"apps", "v1", "Deployment"⟩)
    (fun _ => GetOutcome.notFound) ⟨"apps", "Deployment", "Bar", "Foo"⟩
    ⟨"apps", "v1", "Deployment"⟩ rfl rfl).1

/-- C10: when the group/kind mapping of an identity resolves and the get
call succeeds, lookupResource returns a non-error object whose group,
version and kind equal the mapping resolved for the requested identity. -/
theorem lookupResource_gvk_spec :
    ∀ (mapper : GroupKind → Option GroupVersionKind)
      (reader : ObjMetadata → GetOutcome)
      (id : ObjMetadata) (gvk : GroupVersionKind),
      mapper id.groupKind = some gvk →
      reader id = GetOutcome.found →
      ∃ u, lookupResource mapper reader id = LookupResult.ok u ∧
        u.gvk = gvk := by
  intro mapper reader id gvk h1 h2
  exact ⟨⟨gvk, id.nspace, id.name⟩, by simp only [lookupResource, h1, h2], rfl⟩

/-- Closed witness for lookupResource_gvk_spec at a deployment identity
whose kind resolves and whose read succeeds. -/
theorem lookupResource_gvk_spec_witness :
    ∃ u, lookupResource (fun _ => some ⟨"apps", "v1", "Deployment"⟩)
      (fun _ => GetOutcome.found) ⟨"apps", "Deployment", "Bar", "Foo"⟩ =
      LookupResult.ok u ∧ u.gvk = ⟨"apps", "v1", "Deployment"⟩ :=
  lookupResource_gvk_spec (fun _ => some ⟨"apps", "v1", "Deployment"⟩)
    (fun _ => GetOutcome.found) ⟨"apps", "Deployment", "Bar", "Foo"⟩
    ⟨"apps", "v1", "Deployment"⟩ rfl rfl

/-- A parent deployment manifest carrying a selector at spec.selector. -/
def parentDeploy : UValue :=
  UValue.map [("apiVersion", UValue.str "apps/v1"),
              ("kind", UValue.str "Deployment"),
              ("metadata", UValue.map [("name", UValue.str "Foo")]),
              ("spec", UValue.map
                [("replicas", UValue.str "1"),
                 ("selector", UValue.map
                   [("matchLabels", UValue.map [("app", UValue.str "nginx")])])])]

/-- A parent deployment manifest with no selector under spec. -/
def parentNoSelector : UValue :=
  UValue.map [("apiVersion", UValue.str "apps/v1"),
              ("kind", UValue.str "Deployment"),
              ("metadata", UValue.map [("name", UValue.str "Foo")]),
              ("spec", UValue.map [("replicas", UValue.str "1")])]

/-- The matchLabels selector fields of parentDeploy. -/
def deploySelector : List (String × UValue) :=
  [("matchLabels", UValue.map [("app", UValue.str "nginx")])]

/-- The replica-set group/kind targeted by the child listing. -/
def rsGK : GroupKind := ⟨"apps", "ReplicaSet"⟩

/-- The replica-set mapping resolved by the fake REST mapper. -/
def rsGVK : GroupVersionKind := ⟨"apps", "v1", "ReplicaSet"⟩

/-- The single generated replica set returned by the fake listing. -/
def rsChild : ChildObject := ⟨⟨"apps", "ReplicaSet", "default", "Foo-12345"⟩, ""⟩

/-- C3: every successful statusForGeneratedResources result is sorted by
the total order over identity, whatever order the backend listed the
resources in, and a listing of zero resources yields the empty ordered
result rather than an error. -/
theorem statusForGenerated_sorted :
    (∀ (mapper : GroupKind → Option GroupVersionKind)
       (lister : GroupVersionKind → String → List (String × UValue) →
         Except String (List ChildObject))
       (computeStatus : ChildObject → String)
       (parent : UValue) (parentNs : String) (gk : GroupKind)
       (path : List String) (res : List (ObjMetadata × String)),
       statusForGeneratedResources mapper lister computeStatus
         parent parentNs gk path = Except.ok res →
       List.Sorted statusLe res) ∧
    (∀ (mapper : GroupKind → Option GroupVersionKind)
       (lister : GroupVersionKind → String → List (String × UValue) →
         Except String (List ChildObject))
       (computeStatus : ChildObject → String)
       (parent : UValue) (parentNs : String) (gk : GroupKind)
       (path : List String) (sel : List (String × UValue))
       (gvk : GroupVersionKind),
       toSelector parent path = Except.ok sel →
       mapper gk = some gvk →
       lister gvk parentNs sel = Except.ok [] →
       statusForGeneratedResources mapper lister computeStatus
         parent parentNs gk path = Except.ok []) := by
  constructor
  · intro mapper lister computeStatus parent parentNs gk path res h
    cases hs : toSelector parent path with
    | error e =>
      simp only [statusForGeneratedResources, hs] at h
      exact Except.noConfusion h
    | ok sel =>
      cases hm : mapper gk with
      | none =>
        simp only [statusForGeneratedResources, hs, hm] at h
        exact Except.noConfusion h
      | some gvk =>
        cases hl : lister gvk parentNs sel with
        | error e =>
          simp only [statusForGeneratedResources, hs, hm, hl] at h
          exact Except.noConfusion h
        | ok children =>
          simp only [statusForGeneratedResources, hs, hm, hl,
            Except.ok.injEq] at h
          subst h
          exact List.sorted_insertionSort statusLe _
  · intro mapper lister computeStatus parent parentNs gk path sel gvk h1 h2 h3
    simp only [statusForGeneratedResources, h1, h2, h3, List.map_nil,
      sortStatuses, List.insertionSort]

/-- Closed witness for statusForGenerated_sorted: a successful listing of
one replica set is sorted, and an empty listing yields the empty result. -/
theorem statusForGenerated_sorted_witness :
    List.Sorted statusLe [(rsChild.identity, "InProgress")] ∧
    statusForGeneratedResources (fun _ => some rsGVK)
      (fun _ _ _ => Except.ok []) (fun _ => "InProgress")
      parentDeploy "default" rsGK ["spec", "selector"] = Except.ok [] :=
  ⟨statusForGenerated_sorted.1 (fun _ => some rsGVK)
      (fun _ _ _ => Except.ok [rsChild]) (fun _ => "InProgress")
      parentDeploy "default" rsGK ["spec", "selector"]
      [(rsChild.identity, "InProgress")] rfl,
   statusForGenerated_sorted.2 (fun _ => some rsGVK)
      (fun _ _ _ => Except.ok []) (fun _ => "InProgress")
      parentDeploy "default" rsGK ["spec", "selector"]
      deploySelector rsGVK rfl rfl rfl⟩

/-- C6: statusForGeneratedResources fails, never returning a partial
result, when the parent carries no selector at the field path (the
"no selector found" error), when the target group/kind is unknown to the
REST mapper (the "no matches for kind" error), or when the listing call
fails (that error surfaced verbatim). -/
theorem statusForGenerated_errors :
    (∀ (mapper : GroupKind → Option GroupVersionKind)
       (lister : GroupVersionKind → String → List (String × UValue) →
         Except String (List ChildObject))
       (computeStatus : ChildObject → String)
       (parent : UValue) (parentNs : String) (gk : GroupKind)
       (path : List String),
       getNested parent path = none →
       statusForGeneratedResources mapper lister computeStatus
         parent parentNs gk path = Except.error "no selector found") ∧
    (∀ (mapper : GroupKind → Option GroupVersionKind)
       (lister : GroupVersionKind → String → List (String × UValue) →
         Except String (List ChildObject))
       (computeStatus : ChildObject → String)
       (parent : UValue) (parentNs : String) (gk : GroupKind)
       (path : List String) (sel : List (String × UValue)),
       toSelector parent path = Except.ok sel →
       mapper gk = none →
       statusForGeneratedResources mapper lister computeStatus
         parent parentNs gk path =
         Except.error ("no matches for kind " ++ gk.kind ++ " in group " ++ gk.group)) ∧
    (∀ (mapper : GroupKind → Option GroupVersionKind)
       (lister : GroupVersionKind → String → List (String × UValue) →
         Except String (List ChildObject))
       (computeStatus : ChildObject → String)
       (parent : UValue) (parentNs : String) (gk : GroupKind)
       (path : List String) (sel : List (String × UValue))
       (gvk : GroupVersionKind) (e : String),
       toSelector parent path = Except.ok sel →
       mapper gk = some gvk →
       lister gvk parentNs sel = Except.error e →
       statusForGeneratedResources mapper lister computeStatus
         parent parentNs gk path = Except.error e) := by
  refine ⟨?_, ?_, ?_⟩
  · intro mapper lister computeStatus parent parentNs gk path h
    simp only [statusForGeneratedResources, toSelector, h]
  · intro mapper lister computeStatus parent parentNs gk path sel h1 h2
    simp only [statusForGeneratedResources, h1, h2]
  · intro mapper lister computeStatus parent parentNs gk path sel gvk e h1 h2 h3
    simp only [statusForGeneratedResources, h1, h2, h3]

/-- Closed witness for statusForGenerated_errors: a deployment without
spec.selector, an unknown child kind, and a failing listing. -/
theorem statusForGenerated_errors_witness :
    statusForGeneratedResources (fun _ => some rsGVK)
      (fun _ _ _ => Except.ok []) (fun _ => "InProgress")
      parentNoSelector "default" rsGK ["spec", "selector"] =
      Except.error "no selector found" ∧
    statusForGeneratedResources (fun _ => none)
      (fun _ _ _ => Except.ok []) (fun _ => "InProgress")
      parentDeploy "default" ⟨"custom.io", "Custom"⟩ ["spec", "selector"] =
      Except.error ("no matches for kind " ++ "Custom" ++ " in group " ++ "custom.io") ∧
    statusForGeneratedResources (fun _ => some rsGVK)
      (fun _ _ _ => Except.error "this is a test") (fun _ => "InProgress")
      parentDeploy "default" rsGK ["spec", "selector"] =
      Except.error "this is a test" :=
  ⟨statusForGenerated_errors.1 (fun _ => some rsGVK)
      (fun _ _ _ => Except.ok []) (fun _ => "InProgress")
      parentNoSelector "default" rsGK ["spec", "selector"] rfl,
   statusForGenerated_errors.2.1 (fun _ => none)
      (fun _ _ _ => Except.ok []) (fun _ => "InProgress")
      parentDeploy "default" ⟨"custom.io", "Custom"⟩ ["spec", "selector"]
      deploySelector rfl rfl,
   statusForGenerated_errors.2.2 (fun _ => some rsGVK)
      (fun _ _ _ => Except.error "this is a test") (fun _ => "InProgress")
      parentDeploy "default" rsGK ["spec", "selector"]
      deploySelector rsGVK "this is a test" rfl rfl rfl⟩
